import Mathlib

/-!
# Verification of the StoryBook transcription servers

Shallow embedding of `local-ai-services/transcription-server.py` (the
"enhanced" variant) and `local-ai-services/railway-transcription/transcription-server.py`
(the "railway" variant): two near-identical Flask services that download a
remote audio file, feed it to an external speech-to-text provider, and shape
the provider's segments into a JSON (or SSE) response.

The external provider (`faster_whisper`), the HTTP transport and the OS
temp-file allocator are modelled as an environment/oracle; everything the
handlers themselves compute (validation, suffix sniffing, response shaping,
confidence arithmetic, cleanup) is embedded as executable Lean functions.
Python floats are modelled as rationals; Python's `round(x, 1)` is modelled
as rounding `10*x` to the nearest integer (`round1`).
-/

namespace StoryBook

/-- Python's substring test `pat in s`, on the character sequences. -/
def strContains (s pat : String) : Bool := decide (pat.toList <:+: s.toList)

/-- Python's `s.endswith(pat)`, on the character sequences. -/
def strEndsWith (s pat : String) : Bool := decide (pat.toList <:+ s.toList)

/-- Python's `s.strip()`: drop leading and trailing whitespace. -/
def pyStrip (s : String) : String :=
  String.mk (((s.toList.dropWhile Char.isWhitespace).reverse.dropWhile
    Char.isWhitespace).reverse)

/-- A scalar JSON value, as it may appear bound to the `audioUrl` key of the
request body.  Used to model Python truthiness of `data.get('audioUrl')`. -/
inductive JVal where
  | jnull
  | jbool (b : Bool)
  | jnum (q : ℚ)
  | jstr (s : String)
deriving DecidableEq

/-- Python truthiness of a scalar JSON value: `None`, `False`, `0` and `""`
are falsy, everything else is truthy. -/
def JVal.truthy : JVal → Bool
  | .jnull => false
  | .jbool b => b
  | .jnum q => decide (q ≠ 0)
  | .jstr s => decide (s ≠ "")

/-- The URL string carried by the `audioUrl` value.  Only the string case is
ever reached with a successful fetch: in Python, `requests.get` raises on a
non-string argument before the suffix logic runs. -/
def JVal.asUrl : JVal → String
  | .jstr s => s
  | _ => ""

/-- The parsed JSON body of a POST request: `data.get('audioUrl')` and
`data.get('language')`.  `none` models an absent key. -/
structure TranscribeRequest where
  audioUrl : Option JVal
  language : Option String

/-- A word object exposed by the provider (`word.word`, `word.start`,
`word.end`, optionally `word.probability`). -/
structure ProviderWord where
  word : String
  start : ℚ
  end_ : ℚ
  probability : Option ℚ
deriving DecidableEq

/-- A segment object exposed by the provider.  `avg_logprob = none` models a
segment object without the `avg_logprob` attribute (the `hasattr` probe);
`words` is the word list, empty when absent (the code treats an absent or
empty `words` attribute identically, emitting `[]`). -/
structure ProviderSegment where
  text : String
  start : ℚ
  end_ : ℚ
  avg_logprob : Option ℚ
  words : List ProviderWord
deriving DecidableEq

/-- The summary object returned by the provider alongside the segments:
`info.language` and (optionally) `info.duration`. -/
structure Info where
  language : String
  duration : Option ℚ
deriving DecidableEq

deriving instance DecidableEq for Except

/-- One run of the provider's lazy segment generator:
`init` is the outcome of the `model.transcribe(...)` call itself (which can
raise before yielding anything), `segs` are the segments successfully
yielded, and `midFail` is an exception raised while iterating, after `segs`
(`none` when iteration completes normally). -/
structure ProviderRun where
  init : Except String Info
  segs : List ProviderSegment
  midFail : Option String
deriving DecidableEq

/-- The exception message raised by the provider during transcription, if
any: either the `model.transcribe` call itself raised, or iteration of the
lazy segment generator raised mid-stream. -/
def providerRaises (run : ProviderRun) : Option String :=
  match run.init with
  | .error e => some e
  | .ok _ => run.midFail

/-- Outcome of streaming the HTTP response body into the temp file:
either every chunk of `response.iter_content` is written, or the iterator
raises mid-stream with a message. -/
inductive StreamOutcome where
  | complete
  | failMid (msg : String)
deriving DecidableEq

/-- Outcome of `requests.get(audio_url, ...)` followed by
`raise_for_status()`: a `requests.RequestException` (network failure,
timeout, non-2xx), or a response carrying a Content-Type header and a body
stream. -/
inductive FetchOutcome where
  | fetchError (msg : String)
  | ok (contentType : String) (body : StreamOutcome)
deriving DecidableEq

/-- The per-request environment: what the network, the provider and the
temp-file allocator do for this request.  `tmpBase` is the fresh name stem
chosen by `tempfile.NamedTemporaryFile` (the OS guarantees freshness). -/
structure Env where
  fetch : FetchOutcome
  run : ProviderRun
  tmpBase : String

/-- Suffix sniffing, lines 56-64 of the enhanced variant (52-61 railway):
```
if 'audio/mpeg' in content_type or audio_url.endswith('.mp3'): suffix = '.mp3'
elif 'audio/wav' in content_type or audio_url.endswith('.wav'): suffix = '.wav'
elif 'audio/mp4' in content_type or audio_url.endswith('.m4a'): suffix = '.m4a'
else: suffix = '.mp3'
``` -/
def pickSuffix (contentType audioUrl : String) : String :=
  if strContains contentType "audio/mpeg" || strEndsWith audioUrl ".mp3" then ".mp3"
  else if strContains contentType "audio/wav" || strEndsWith audioUrl ".wav" then ".wav"
  else if strContains contentType "audio/mp4" || strEndsWith audioUrl ".m4a" then ".m4a"
  else ".mp3"

/-- The suffix rule the spec describes (claim C4): match the Content-Type
first (audio/mpeg, audio/wav, audio/mp4, in that order), and only if none of
those is recognized consult the URL suffix, else default to `.mp3`.
This definition follows the spec's words, to be compared with `pickSuffix`
(which follows the code). -/
def pickSuffixSpec (contentType audioUrl : String) : String :=
  if strContains contentType "audio/mpeg" then ".mp3"
  else if strContains contentType "audio/wav" then ".wav"
  else if strContains contentType "audio/mp4" then ".m4a"
  else if strEndsWith audioUrl ".mp3" then ".mp3"
  else if strEndsWith audioUrl ".wav" then ".wav"
  else if strEndsWith audioUrl ".m4a" then ".m4a"
  else ".mp3"

/-- The code's suffix logic as an ordered list of pattern-to-suffix rules:
each rule fires when the Content-Type contains the format's MIME type OR the
URL ends with the format's extension. -/
def suffixRules : List ((String → String → Bool) × String) :=
  [ (fun ct url => strContains ct "audio/mpeg" || strEndsWith url ".mp3", ".mp3"),
    (fun ct url => strContains ct "audio/wav" || strEndsWith url ".wav", ".wav"),
    (fun ct url => strContains ct "audio/mp4" || strEndsWith url ".m4a", ".m4a") ]

/-- Evaluate an ordered rule list, returning the suffix of the first rule
that matches, or the default. -/
def firstMatch (rules : List ((String → String → Bool) × String))
    (default : String) (ct url : String) : String :=
  match rules with
  | [] => default
  | r :: rest => if r.1 ct url then r.2 else firstMatch rest default ct url

/-- `min(100, max(0, (1 + avg_logprob) * 100))`, line 123. -/
def clampConf (p : ℚ) : ℚ := min 100 (max 0 ((1 + p) * 100))

/-- Python's `round(x, 1)`, modelled on rationals: round `10*x` to the
nearest integer and divide by ten. -/
def round1 (x : ℚ) : ℚ := (round (10 * x) : ℚ) / 10

/-- A word entry of a response segment: text, timing, and
`round(word.probability * 100, 1)` when the provider exposes a probability
(lines 149-158). -/
structure WordOut where
  word : String
  start : ℚ
  end_ : ℚ
  confidence : Option ℚ
deriving DecidableEq

/-- A segment entry of the `/transcribe` response (lines 139-145). -/
structure SegmentOut where
  text : String
  start : ℚ
  end_ : ℚ
  confidence : Option ℚ
  words : List WordOut
deriving DecidableEq

/-- An entry of `lowConfidenceSegments` (lines 129-134): note it has no
`words` field and its `confidence` is the rounded clamp, unconditionally. -/
structure LowSeg where
  text : String
  confidence : ℚ
  start : ℚ
  end_ : ℚ
deriving DecidableEq

/-- The `metadata` object of the enhanced response (lines 180-185). -/
structure Metadata where
  model : String
  segmentCount : Nat
  hasWordTimestamps : Bool
  vadFilterApplied : Bool
deriving DecidableEq

/-- The success body of the enhanced `/transcribe` endpoint (lines 173-186). -/
structure ResponseData where
  text : String
  language : String
  duration : Option ℚ
  segments : List SegmentOut
  confidence : Option ℚ
  lowConfidenceSegments : List LowSeg
  metadata : Metadata
deriving DecidableEq

/-- Word serialization, lines 149-158: `word`, `start`, `end`, plus
`confidence = round(word.probability * 100, 1)` when the attribute exists. -/
def mkWordOut (w : ProviderWord) : WordOut :=
  { word := w.word, start := w.start, end_ := w.end_,
    confidence := w.probability.map fun pr => round1 (pr * 100) }

/-- Segment serialization, lines 139-158, given the computed (unrounded)
confidence of the segment.  The `confidence` field is
`round(segment_confidence, 1) if segment_confidence else None`: Python
truthiness turns a confidence of exactly 0 into `None`. -/
def mkSegmentOut (s : ProviderSegment) (conf : Option ℚ) : SegmentOut :=
  { text := pyStrip s.text, start := s.start, end_ := s.end_,
    confidence := match conf with
      | some c => if c = 0 then none else some (round1 c)
      | none => none,
    words := s.words.map mkWordOut }

/-- The loop accumulator of the enhanced `/transcribe` shaper
(lines 112-116): `text_parts`, `segments_data`, `total_confidence`,
`segment_count`, `low_confidence_segments`. -/
structure ShapeAcc where
  textParts : List String
  segmentsData : List SegmentOut
  totalConfidence : ℚ
  segmentCount : Nat
  lowConf : List LowSeg
deriving DecidableEq

/-- One iteration of the segment loop, lines 118-160. -/
def shapeStep (acc : ShapeAcc) (s : ProviderSegment) : ShapeAcc :=
  match s.avg_logprob with
  | some p =>
    let c := clampConf p
    let acc1 : ShapeAcc :=
      { acc with totalConfidence := acc.totalConfidence + c,
                 segmentCount := acc.segmentCount + 1 }
    let acc2 : ShapeAcc :=
      if c < 70 then
        { acc1 with lowConf := acc1.lowConf ++
            [{ text := pyStrip s.text, confidence := round1 c,
               start := s.start, end_ := s.end_ }] }
      else acc1
    { acc2 with textParts := acc2.textParts ++ [pyStrip s.text],
                segmentsData := acc2.segmentsData ++ [mkSegmentOut s (some c)] }
  | none =>
    { acc with textParts := acc.textParts ++ [pyStrip s.text],
               segmentsData := acc.segmentsData ++ [mkSegmentOut s none] }

/-- The whole segment loop, starting from the empty accumulator. -/
def shapeSegments (segs : List ProviderSegment) : ShapeAcc :=
  segs.foldl shapeStep { textParts := [], segmentsData := [],
                         totalConfidence := 0, segmentCount := 0, lowConf := [] }

/-- Build the enhanced success response (lines 162-186): join the trimmed
texts with single spaces, compute the mean confidence over segments that had
a log-probability (`None` when there were none, and — by Python truthiness —
also when the mean is exactly 0), and attach metadata. -/
def buildResponse (modelName : String) (segs : List ProviderSegment)
    (info : Info) : ResponseData :=
  let acc := shapeSegments segs
  let avg : Option ℚ :=
    if acc.segmentCount > 0 then some (acc.totalConfidence / acc.segmentCount)
    else none
  { text := String.intercalate " " acc.textParts,
    language := info.language,
    duration := info.duration,
    segments := acc.segmentsData,
    confidence := match avg with
      | some a => if a = 0 then none else some (round1 a)
      | none => none,
    lowConfidenceSegments := if acc.lowConf = [] then [] else acc.lowConf,
    metadata := { model := modelName, segmentCount := acc.segmentsData.length,
                  hasWordTimestamps := true, vadFilterApplied := true } }

/-- Reference shapes used in the claim statements (not by the handlers):
the output segment a provider segment maps to. -/
def outSeg (s : ProviderSegment) : SegmentOut :=
  mkSegmentOut s (s.avg_logprob.map clampConf)

/-- The log-probabilities present among the segments, in order. -/
def logprobsOf (segs : List ProviderSegment) : List ℚ :=
  segs.filterMap ProviderSegment.avg_logprob

/-- Sum of the clamped confidences of the segments that have one. -/
def totalOf (segs : List ProviderSegment) : ℚ :=
  ((logprobsOf segs).map clampConf).sum

/-- Number of segments that have a log-probability. -/
def countOf (segs : List ProviderSegment) : Nat := (logprobsOf segs).length

/-- The low-confidence entries: segments with a log-probability whose
clamped confidence is strictly below 70, projected to `LowSeg`. -/
def lowOf (segs : List ProviderSegment) : List LowSeg :=
  segs.filterMap fun s => s.avg_logprob.bind fun p =>
    if clampConf p < 70 then
      some { text := pyStrip s.text, confidence := round1 (clampConf p),
             start := s.start, end_ := s.end_ }
    else none

/-- A `/transcribe` HTTP response: a 200 JSON success body, or an error
envelope `{"error": msg}` with a status code. -/
inductive TResponse where
  | ok (body : ResponseData)
  | err (status : Nat) (error : String)
deriving DecidableEq

/-- The enhanced `/transcribe` handler (lines 27-201), as a function of the
request, the environment, and the set of existing temp files.  Returns the
response and the temp files existing after the handler returns.

Control flow mirrored from the source: missing/falsy `audioUrl` → 400;
fetch exception → 400; the temp file is created (`delete=False`) and the
body streamed into it inside the `with` block — a mid-stream failure there
propagates to the outer `except`, returning 500 *without* deleting the file;
once `tmp_path` is assigned, the `try/.../finally` around the transcription
guarantees `os.unlink(tmp_path)` on success and on provider failure. -/
def transcribe (modelName : String) (req : TranscribeRequest) (env : Env)
    (files : List String) : TResponse × List String :=
  match req.audioUrl with
  | none => (.err 400 "audioUrl required", files)
  | some v =>
    if !v.truthy then (.err 400 "audioUrl required", files)
    else
      match env.fetch with
      | .fetchError msg =>
        (.err 400 ("Failed to download audio: " ++ msg), files)
      | .ok contentType body =>
        let tmpPath := env.tmpBase ++ pickSuffix contentType v.asUrl
        let files1 := files ++ [tmpPath]
        match body with
        | .failMid msg => (.err 500 msg, files1)
        | .complete =>
          let files2 := files1.erase tmpPath
          match env.run.init with
          | .error e => (.err 500 ("Transcription failed: " ++ e), files2)
          | .ok info =>
            match env.run.midFail with
            | some e => (.err 500 ("Transcription failed: " ++ e), files2)
            | none => (.ok (buildResponse modelName env.run.segs info), files2)

/-- A word entry of an SSE `segment` event (no confidence field). -/
structure StreamWord where
  word : String
  start : ℚ
  end_ : ℚ
deriving DecidableEq

/-- One Server-Sent Event emitted by the streaming endpoint, lines 260-290:
`start`, `segment`, `complete` or `error`. -/
inductive SSEEvent where
  | start (language : String) (duration : Option ℚ)
  | segment (text : String) (start_ end_ : ℚ) (words : List StreamWord)
  | complete
  | error (message : String)
deriving DecidableEq

/-- The SSE payload of one provider segment (lines 264-283): trimmed text,
timing, and the word timings when present (an absent or empty word list
serializes to `[]`, which mapping the empty list also yields). -/
def segEvent (s : ProviderSegment) : SSEEvent :=
  .segment (pyStrip s.text) s.start s.end_
    (s.words.map fun w => { word := w.word, start := w.start, end_ := w.end_ })

/-- Event classifiers used in the claim statements. -/
def isStartEv : SSEEvent → Bool
  | .start _ _ => true
  | _ => false

def isSegmentEv : SSEEvent → Bool
  | .segment _ _ _ _ => true
  | _ => false

/-- A terminal event: `complete` or `error`. -/
def isTerminalEv : SSEEvent → Bool
  | .complete => true
  | .error _ => true
  | _ => false

/-- The `generate()` generator of `/transcribe/stream` (lines 250-296):
call the provider; if the call itself raises, the `except` yields a single
`error` event.  Otherwise yield `start`, then one `segment` event per
yielded segment, then `complete` — unless iteration raised mid-stream, in
which case the `except` yields an `error` event instead. -/
def generate (run : ProviderRun) : List SSEEvent :=
  match run.init with
  | .error e => [.error e]
  | .ok info =>
    .start info.language info.duration ::
      (run.segs.map segEvent ++
        [match run.midFail with
         | some e => .error e
         | none => .complete])

/-- A `/transcribe/stream` HTTP response: an SSE stream (the fully drained
event list), or an error envelope with a status code. -/
inductive StreamResponse where
  | sse (events : List SSEEvent)
  | err (status : Nat) (error : String)
deriving DecidableEq

/-- The `/transcribe/stream` handler (lines 204-309).  Validation, fetch and
temp-file handling are identical to `/transcribe`; on success the response
is the drained SSE stream, and the generator's `finally` unlinks the temp
file exactly once after the stream is drained, on both terminal paths. -/
def transcribeStream (req : TranscribeRequest) (env : Env)
    (files : List String) : StreamResponse × List String :=
  match req.audioUrl with
  | none => (.err 400 "audioUrl required", files)
  | some v =>
    if !v.truthy then (.err 400 "audioUrl required", files)
    else
      match env.fetch with
      | .fetchError msg =>
        (.err 400 ("Failed to download audio: " ++ msg), files)
      | .ok contentType body =>
        let tmpPath := env.tmpBase ++ pickSuffix contentType v.asUrl
        let files1 := files ++ [tmpPath]
        match body with
        | .failMid msg => (.err 500 msg, files1)
        | .complete => (.sse (generate env.run), files1.erase tmpPath)

/-- A segment entry of the railway `/transcribe` response (lines 93-98):
trimmed text, timing, and the provider's raw word objects. -/
structure RailwaySegment where
  text : String
  start : ℚ
  end_ : ℚ
  words : List ProviderWord
deriving DecidableEq

/-- The success body of the railway `/transcribe` endpoint (lines 104-109). -/
structure RailwayResponse where
  text : String
  language : String
  duration : Option ℚ
  segments : List RailwaySegment
deriving DecidableEq

/-- The railway loop accumulator (lines 88-89). -/
structure RailwayAcc where
  textParts : List String
  segmentsData : List RailwaySegment
deriving DecidableEq

/-- One iteration of the railway segment loop, lines 90-98. -/
def railwayStep (acc : RailwayAcc) (s : ProviderSegment) : RailwayAcc :=
  { textParts := acc.textParts ++ [pyStrip s.text],
    segmentsData := acc.segmentsData ++
      [{ text := pyStrip s.text, start := s.start, end_ := s.end_,
         words := s.words }] }

/-- Build the railway success response (lines 88-109). -/
def railwayBuildResponse (segs : List ProviderSegment) (info : Info) :
    RailwayResponse :=
  let acc := segs.foldl railwayStep { textParts := [], segmentsData := [] }
  { text := String.intercalate " " acc.textParts,
    language := info.language,
    duration := info.duration,
    segments := acc.segmentsData }

/-- The railway segment entry a provider segment maps to (used in claim
statements). -/
def railwaySegOf (s : ProviderSegment) : RailwaySegment :=
  { text := pyStrip s.text, start := s.start, end_ := s.end_, words := s.words }

/-- A response segment's confidence, when present, lies in `[0, 100]`
(Boolean form, used in claim statements). -/
def confInRange (s : SegmentOut) : Bool :=
  match s.confidence with
  | none => true
  | some c => decide (0 ≤ c) && decide (c ≤ 100)

/-- Read an environment variable with a default:
`os.getenv(key, default)`. -/
def getenvD (env : String → Option String) (key default : String) : String :=
  (env key).getD default

/-- `MODEL_NAME = os.getenv('WHISPER_MODEL', 'large-v3')` (line 14). -/
def MODEL_NAME (env : String → Option String) : String :=
  getenvD env "WHISPER_MODEL" "large-v3"

/-- `COMPUTE_TYPE = os.getenv('WHISPER_COMPUTE_TYPE', 'int8')` (line 15). -/
def COMPUTE_TYPE (env : String → Option String) : String :=
  getenvD env "WHISPER_COMPUTE_TYPE" "int8"

/-- The body of `GET /health` (lines 312-319; identical in the railway
variant, lines 248-255). -/
structure HealthBody where
  status : String
  service : String
  model : String
  compute_type : String
deriving DecidableEq

/-- The `GET /health` handler: HTTP status and JSON body. -/
def health (env : String → Option String) : Nat × HealthBody :=
  (200, { status := "ok", service := "transcription-server",
          model := MODEL_NAME env, compute_type := COMPUTE_TYPE env })

/-- The body of the railway `GET /` handler (lines 233-245): the health
fields plus a static endpoints listing. -/
structure RootBody where
  status : String
  service : String
  endpoints : List (String × String)
  model : String
  compute_type : String
deriving DecidableEq

/-- The railway `GET /` handler. -/
def root (env : String → Option String) : Nat × RootBody :=
  (200, { status := "ok", service := "transcription-server",
          endpoints := [("health", "/health"),
                        ("transcribe", "/transcribe (POST)"),
                        ("transcribe/stream", "/transcribe/stream (POST) - SSE streaming")],
          model := MODEL_NAME env, compute_type := COMPUTE_TYPE env })


theorem shapeStep_foldl (segs : List ProviderSegment) : ∀ acc : ShapeAcc,
    segs.foldl shapeStep acc =
      { textParts := acc.textParts ++ segs.map (fun s => pyStrip s.text),
        segmentsData := acc.segmentsData ++ segs.map outSeg,
        totalConfidence := acc.totalConfidence + totalOf segs,
        segmentCount := acc.segmentCount + countOf segs,
        lowConf := acc.lowConf ++ lowOf segs } := by
  induction segs with
  | nil =>
    intro acc
    simp [totalOf, countOf, lowOf, logprobsOf]
  | cons s rest ih =>
    intro acc
    rw [List.foldl_cons, ih]
    obtain ⟨tp, sd, tc, sc, lc⟩ := acc
    cases h : s.avg_logprob with
    | none =>
      simp [shapeStep, h, outSeg, totalOf, countOf, lowOf, logprobsOf,
        List.filterMap_cons, List.append_assoc]
    | some p =>
      by_cases hc : clampConf p < 70
      · simp [shapeStep, h, hc, outSeg, totalOf, countOf, lowOf, logprobsOf,
          List.filterMap_cons, List.append_assoc, add_assoc, add_comm (clampConf p)]
        omega
      · simp [shapeStep, h, hc, outSeg, totalOf, countOf, lowOf, logprobsOf,
          List.filterMap_cons, List.append_assoc, add_assoc, add_comm (clampConf p)]
        omega


theorem shapeSegments_eq (segs : List ProviderSegment) :
    shapeSegments segs =
      { textParts := segs.map (fun s => pyStrip s.text),
        segmentsData := segs.map outSeg,
        totalConfidence := totalOf segs,
        segmentCount := countOf segs,
        lowConf := lowOf segs } := by
  simp [shapeSegments, shapeStep_foldl]

theorem railwayStep_foldl (segs : List ProviderSegment) : ∀ acc : RailwayAcc,
    segs.foldl railwayStep acc =
      { textParts := acc.textParts ++ segs.map (fun s => pyStrip s.text),
        segmentsData := acc.segmentsData ++ segs.map railwaySegOf } := by
  induction segs with
  | nil => intro acc; simp
  | cons s rest ih =>
    intro acc
    rw [List.foldl_cons, ih]
    obtain ⟨tp, sd⟩ := acc
    simp [railwayStep, railwaySegOf, List.append_assoc]

/-- C1: for every provider output, the top-level `text` of both variants'
`/transcribe` responses is the single-space join of the returned segments'
texts, which are the provider segments' trimmed texts in order. -/
theorem C1_text_join (m : String) (segs : List ProviderSegment) (info : Info) :
    ((buildResponse m segs info).text
        = String.intercalate " " ((buildResponse m segs info).segments.map SegmentOut.text))
    ∧ ((buildResponse m segs info).segments.map SegmentOut.text
        = segs.map fun s => pyStrip s.text)
    ∧ ((railwayBuildResponse segs info).text
        = String.intercalate " "
            ((railwayBuildResponse segs info).segments.map RailwaySegment.text))
    ∧ ((railwayBuildResponse segs info).segments.map RailwaySegment.text
        = segs.map fun s => pyStrip s.text) := by
  refine ⟨?_, ?_, ?_, ?_⟩ <;>
    simp [buildResponse, railwayBuildResponse, shapeSegments_eq, railwayStep_foldl,
      outSeg, mkSegmentOut, railwaySegOf, List.map_map, Function.comp_def]


theorem clampConf_nonneg (p : ℚ) : 0 ≤ clampConf p := by
  simp [clampConf, le_min_iff, le_max_iff]

theorem clampConf_le_100 (p : ℚ) : clampConf p ≤ 100 := min_le_left _ _

theorem round1_nonneg {x : ℚ} (h : 0 ≤ x) : 0 ≤ round1 x := by
  have h2 : (0 : ℤ) ≤ round (10 * x) := by
    rw [round_eq, Int.le_floor]
    push_cast
    linarith
  unfold round1
  positivity

theorem round1_le_100 {x : ℚ} (h : x ≤ 100) : round1 x ≤ 100 := by
  have h2 : round (10 * x) ≤ round (1000 : ℚ) := by
    rw [round_eq, round_eq]
    exact Int.floor_le_floor (by linarith)
  have h3 : round (1000 : ℚ) = 1000 := by
    exact_mod_cast round_intCast (α := ℚ) 1000
  rw [h3] at h2
  rw [round1, div_le_iff₀ (by norm_num : (0:ℚ) < 10)]
  calc ((round (10 * x) : ℤ) : ℚ) ≤ (1000 : ℚ) := by exact_mod_cast h2
    _ = 100 * 10 := by norm_num

/-- C2 (amended): confidence pipeline of the enhanced shaper. -/
theorem C2_amended (m : String) (segs : List ProviderSegment) (info : Info) :
    ((buildResponse m segs info).segments.map SegmentOut.confidence
      = segs.map fun s => s.avg_logprob.bind fun p =>
          if clampConf p = 0 then none else some (round1 (clampConf p)))
    ∧ ((buildResponse m segs info).segments.all confInRange = true)
    ∧ ((buildResponse m segs info).confidence
      = if 0 < countOf segs then
          (if totalOf segs / countOf segs = 0 then none
           else some (round1 (totalOf segs / countOf segs)))
        else none) := by
  refine ⟨?_, ?_, ?_⟩
  · simp only [buildResponse, shapeSegments_eq, List.map_map, Function.comp_def]
    rw [List.map_inj_left]
    intro s _
    cases h : s.avg_logprob <;> simp [outSeg, mkSegmentOut, h]
  · rw [List.all_eq_true]
    intro s hs
    simp only [buildResponse, shapeSegments_eq, List.mem_map] at hs
    obtain ⟨t, -, rfl⟩ := hs
    cases h : t.avg_logprob with
    | none => simp [confInRange, outSeg, mkSegmentOut, h]
    | some p =>
      by_cases hz : clampConf p = 0
      · simp [confInRange, outSeg, mkSegmentOut, h, hz]
      · simp [confInRange, outSeg, mkSegmentOut, h, hz]
        exact ⟨round1_nonneg (clampConf_nonneg p), round1_le_100 (clampConf_le_100 p)⟩
  · by_cases hcount : 0 < countOf segs <;>
      simp [buildResponse, shapeSegments_eq, hcount]

/-- C2 counterexample: a segment with `avg_logprob = -2` exposes a
log-probability, and the claimed formula gives confidence
`clamp(0,100,(1+(-2))*100) = 0`; the code reports `null` instead (Python
truthiness of `0`). -/
theorem C2_counterexample :
    ((buildResponse "large-v3"
        [{ text := "Muraho", start := 0, end_ := 1,
           avg_logprob := some (-2), words := [] }]
        { language := "rw", duration := some 3 }).segments.map SegmentOut.confidence)
      ≠ [some (clampConf (-2))] := by
  have h1 : clampConf (-2) = 0 := by
    rw [clampConf, show ((1 + (-2 : ℚ)) * 100 = -100) by norm_num,
      max_eq_left (by norm_num : (-100 : ℚ) ≤ 0),
      min_eq_right (by norm_num : (0 : ℚ) ≤ 100)]
  simp [buildResponse, shapeSegments_eq, outSeg, mkSegmentOut, h1]


theorem ite_nil_self {α : Type} [DecidableEq α] (l : List α) :
    (if l = [] then ([] : List α) else l) = l := by
  split <;> simp_all

theorem lowOf_eq_filter_map (segs : List ProviderSegment) :
    lowOf segs
      = (segs.filter fun s =>
          match s.avg_logprob with
          | some p => decide (clampConf p < 70)
          | none => false).map fun s =>
          { text := pyStrip s.text,
            confidence := round1 (clampConf (s.avg_logprob.getD 0)),
            start := s.start, end_ := s.end_ } := by
  induction segs with
  | nil => rfl
  | cons s rest ih =>
    cases h : s.avg_logprob with
    | none => simp [lowOf, List.filterMap_cons, List.filter_cons, h, lowOf] at ih ⊢; exact ih
    | some p =>
      by_cases hc : clampConf p < 70 <;>
        simp [lowOf, List.filterMap_cons, List.filter_cons, h, hc] at ih ⊢ <;> exact ih

/-- C3 (amended): `lowConfidenceSegments` is the order-preserved projection
(text, confidence, start, end — no words) of exactly those provider segments
that expose a log-probability and whose computed (unrounded) confidence is
strictly below 70; each entry carries the rounded computed confidence, which
is `0.0` (not null) for segments whose clamped confidence is zero. -/
theorem C3_amended (m : String) (segs : List ProviderSegment) (info : Info) :
    (buildResponse m segs info).lowConfidenceSegments
      = (segs.filter fun s =>
          match s.avg_logprob with
          | some p => decide (clampConf p < 70)
          | none => false).map fun s =>
          { text := pyStrip s.text,
            confidence := round1 (clampConf (s.avg_logprob.getD 0)),
            start := s.start, end_ := s.end_ } := by
  rw [← lowOf_eq_filter_map]
  simp only [buildResponse, shapeSegments_eq]
  exact ite_nil_self _

/-- C3 counterexample: with one segment at `avg_logprob = -2`, the segment's
reported confidence in `segments` is null, so the subsequence of `segments`
with confidence < 70 is empty — yet `lowConfidenceSegments` contains the
segment (with confidence 0.0). -/
theorem C3_counterexample :
    (buildResponse "large-v3"
        [{ text := "Muraho", start := 0, end_ := 1,
           avg_logprob := some (-2), words := [] }]
        { language := "rw", duration := some 3 }).lowConfidenceSegments
      ≠ (((buildResponse "large-v3"
            [{ text := "Muraho", start := 0, end_ := 1,
               avg_logprob := some (-2), words := [] }]
            { language := "rw", duration := some 3 }).segments.filter fun s =>
            match s.confidence with
            | some c => decide (c < 70)
            | none => false).map fun s =>
            { text := s.text, confidence := s.confidence.getD 0,
              start := s.start, end_ := s.end_ }) := by
  have h1 : clampConf (-2) = 0 := by
    rw [clampConf, show ((1 + (-2 : ℚ)) * 100 = -100) by norm_num,
      max_eq_left (by norm_num : (-100 : ℚ) ≤ 0),
      min_eq_right (by norm_num : (0 : ℚ) ≤ 100)]
  have h2 : clampConf (-2) < 70 := by rw [h1]; norm_num
  simp [buildResponse, shapeSegments_eq, outSeg, mkSegmentOut, lowOf,
    List.filterMap_cons, List.filter_cons, h1, h2]


/-- C4 counterexample: Content-Type `audio/wav` is recognized, but because
the URL ends in `.mp3` the first branch fires and the code picks `.mp3`,
while the spec's Content-Type-first rule picks `.wav`. -/
theorem C4_counterexample :
    pickSuffix "audio/wav" "http://x/a.mp3" = ".mp3"
    ∧ pickSuffixSpec "audio/wav" "http://x/a.mp3" = ".wav"
    ∧ pickSuffix "audio/wav" "http://x/a.mp3"
        ≠ pickSuffixSpec "audio/wav" "http://x/a.mp3" := by
  refine ⟨by decide, by decide, by decide⟩

/-- C4 (amended): the suffix is resolved by per-format rules evaluated in
order (.mp3, .wav, .m4a), each firing when the Content-Type contains the
format's MIME type OR the URL ends with the format's extension; `.mp3` when
no rule fires.  Content-Type does not take precedence over the URL. -/
theorem C4_amended (ct url : String) :
    pickSuffix ct url = firstMatch suffixRules ".mp3" ct url := rfl

/-- C5: evaluating `/transcribe` at a request whose audio download fails
while the body is being streamed into the temp file: the handler answers 500
with the raw exception message, and the temp file is still on disk. -/
theorem C5_leak_eval :
    transcribe "large-v3"
      { audioUrl := some (.jstr "http://host/audio.mp3"), language := none }
      { fetch := .ok "audio/mpeg" (.failMid "Connection reset by peer"),
        run := { init := .ok { language := "en", duration := some 10 },
                 segs := [], midFail := none },
        tmpBase := "/tmp/tmpabc123" } []
      = (.err 500 "Connection reset by peer", ["/tmp/tmpabc123.mp3"]) := by
  decide

/-- C6 counterexample: when the provider call itself raises (before yielding
any segment), the stream is a single `error` event — there is no `start`
event, contradicting "exactly one `start` event". -/
theorem C6_counterexample :
    generate { init := .error "boom", segs := [], midFail := none }
        = [.error "boom"]
    ∧ (generate { init := .error "boom", segs := [], midFail := none }).countP
        isStartEv ≠ 1 := by
  refine ⟨by decide, by decide⟩


/-- C6 (amended): every stream ends in exactly one terminal event — `error`
with the raised message if the provider raised (at the initial call or
mid-iteration), `complete` otherwise, never both; the `segment` events are
exactly the yielded segments in provider order; and there is exactly one
`start` event when the initial call returns, none when it raises. -/
theorem C6_amended (run : ProviderRun) :
    ((generate run).countP isTerminalEv = 1)
    ∧ ((generate run).getLast? = some
        (match providerRaises run with
         | some e => SSEEvent.error e
         | none => SSEEvent.complete))
    ∧ ((generate run).filter isSegmentEv
        = match run.init with
          | .ok _ => run.segs.map segEvent
          | .error _ => [])
    ∧ ((generate run).countP isStartEv
        = match run.init with
          | .ok _ => 1
          | .error _ => 0) := by
  obtain ⟨init, segs, midFail⟩ := run
  cases init with
  | error e =>
    cases midFail <;> refine ⟨by rfl, by rfl, by rfl, by rfl⟩
  | ok info =>
    have hterm2 : (fun x => isTerminalEv (segEvent x)) = fun _ : ProviderSegment => false :=
      funext fun _ => rfl
    have hseg2 : (fun x => isSegmentEv (segEvent x)) = fun _ : ProviderSegment => true :=
      funext fun _ => rfl
    have hstart2 : (fun x => isStartEv (segEvent x)) = fun _ : ProviderSegment => false :=
      funext fun _ => rfl
    have hts : isTerminalEv (SSEEvent.start info.language info.duration) = false := rfl
    have hss : isSegmentEv (SSEEvent.start info.language info.duration) = false := rfl
    have hsts : isStartEv (SSEEvent.start info.language info.duration) = true := rfl
    have hLast : ∀ t : SSEEvent,
        (SSEEvent.start info.language info.duration ::
          (List.map segEvent segs ++ [t])).getLast? = some t := by
      intro t
      rw [← List.cons_append]
      exact List.getLast?_concat _
    have hTerm : ∀ t : SSEEvent, isTerminalEv t = true →
        (SSEEvent.start info.language info.duration ::
          (List.map segEvent segs ++ [t])).countP isTerminalEv = 1 := by
      intro t ht
      simp [List.countP_cons, List.countP_append, List.countP_map,
        Function.comp_def, hterm2, hts, ht]
    have hFilt : ∀ t : SSEEvent, isSegmentEv t = false →
        (SSEEvent.start info.language info.duration ::
          (List.map segEvent segs ++ [t])).filter isSegmentEv
          = List.map segEvent segs := by
      intro t ht
      simp [List.filter_cons, List.filter_append, List.filter_map,
        Function.comp_def, hseg2, hss, ht, List.filter_true]
    have hStart : ∀ t : SSEEvent, isStartEv t = false →
        (SSEEvent.start info.language info.duration ::
          (List.map segEvent segs ++ [t])).countP isStartEv = 1 := by
      intro t ht
      simp [List.countP_cons, List.countP_append, List.countP_map,
        Function.comp_def, hstart2, hsts, ht]
    cases midFail with
    | none => exact ⟨hTerm _ rfl, hLast _, hFilt _ rfl, hStart _ rfl⟩
    | some e => exact ⟨hTerm _ rfl, hLast _, hFilt _ rfl, hStart _ rfl⟩


/-- C7: when the download completes but the provider raises — at the
`model.transcribe` call or while iterating its lazy segments — the enhanced
`/transcribe` handler answers 500 with
`{"error": "Transcription failed: <message>"}`, and the temp file created
for the request (fresh, so not previously present) is deleted: the file set
is exactly what it was before the request. -/
theorem C7_provider_exception (m u ct tmp msg : String) (lang : Option String)
    (run : ProviderRun) (files : List String)
    (hu : u ≠ "")
    (hraise : providerRaises run = some msg)
    (hfresh : tmp ++ pickSuffix ct u ∉ files) :
    transcribe m { audioUrl := some (.jstr u), language := lang }
      { fetch := .ok ct .complete, run := run, tmpBase := tmp } files
      = (.err 500 ("Transcription failed: " ++ msg), files) := by
  have herase : (files ++ [tmp ++ pickSuffix ct u]).erase (tmp ++ pickSuffix ct u)
      = files := by
    rw [List.erase_append_right _ hfresh, List.erase_cons_head, List.append_nil]
  obtain ⟨init, segs, midFail⟩ := run
  cases init with
  | error e =>
    simp only [providerRaises, Option.some.injEq] at hraise
    subst hraise
    simp [transcribe, JVal.truthy, hu, JVal.asUrl, herase]
  | ok info =>
    simp only [providerRaises] at hraise
    simp [transcribe, JVal.truthy, hu, JVal.asUrl, herase, hraise]

/-- Witness for C7 at a concrete request. -/
theorem C7_witness :
    transcribe "large-v3"
      { audioUrl := some (.jstr "http://host/a.wav"), language := none }
      { fetch := .ok "audio/wav" .complete,
        run := { init := .error "corrupt audio", segs := [], midFail := none },
        tmpBase := "/tmp/tmpX" } []
      = (.err 500 ("Transcription failed: " ++ "corrupt audio"), []) :=
  C7_provider_exception "large-v3" "http://host/a.wav" "audio/wav" "/tmp/tmpX"
    "corrupt audio" none _ [] (by decide) rfl (by decide)

/-- C8: a request body without an `audioUrl` key is answered 400 with
`{"error": "audioUrl required"}` by both POST endpoints, whatever the
network, the provider or the temp-file allocator would have done — no
download or transcription is attempted and no temp file is created. -/
theorem C8_missing_audioUrl (m : String) (lang : Option String) (env : Env)
    (files : List String) :
    transcribe m { audioUrl := none, language := lang } env files
        = (.err 400 "audioUrl required", files)
    ∧ transcribeStream { audioUrl := none, language := lang } env files
        = (.err 400 "audioUrl required", files) :=
  ⟨rfl, rfl⟩

/-- C10: a request whose `audioUrl` key is bound to a falsy JSON value — the
empty string, `false`, `0` or `null` — is answered exactly like a missing
key: 400 with `{"error": "audioUrl required"}` from both POST endpoints,
with no download attempted. -/
theorem C10_falsy_audioUrl (m : String) (v : JVal) (lang : Option String)
    (env : Env) (files : List String) (hv : v.truthy = false) :
    transcribe m { audioUrl := some v, language := lang } env files
        = (.err 400 "audioUrl required", files)
    ∧ transcribeStream { audioUrl := some v, language := lang } env files
        = (.err 400 "audioUrl required", files) := by
  constructor <;> simp [transcribe, transcribeStream, hv]

/-- Witness for C10 at `audioUrl = ""`. -/
theorem C10_witness :
    transcribe "large-v3" { audioUrl := some (.jstr ""), language := none }
      { fetch := .fetchError "unreachable",
        run := { init := .error "x", segs := [], midFail := none },
        tmpBase := "/tmp/t" } []
      = (.err 400 "audioUrl required", [])
    ∧ transcribeStream { audioUrl := some (.jstr ""), language := none }
      { fetch := .fetchError "unreachable",
        run := { init := .error "x", segs := [], midFail := none },
        tmpBase := "/tmp/t" } []
      = (.err 400 "audioUrl required", []) :=
  C10_falsy_audioUrl "large-v3" (.jstr "") none _ [] (by decide)

/-- C9: `GET /health` (both variants) and the railway `GET /` always answer
200 with the fixed service name, and report the model identifier and
compute-precision setting verbatim from the environment, falling back to
`large-v3` and `int8` when the variables are unset. -/
theorem C9_health_root (env : String → Option String) (m c : String) :
    (health env).1 = 200 ∧ (root env).1 = 200
    ∧ (health env).2.service = "transcription-server"
    ∧ (root env).2.service = "transcription-server"
    ∧ (health env).2.model = MODEL_NAME env
    ∧ (root env).2.model = MODEL_NAME env
    ∧ (health env).2.compute_type = COMPUTE_TYPE env
    ∧ (root env).2.compute_type = COMPUTE_TYPE env
    ∧ (env "WHISPER_MODEL" = some m → (health env).2.model = m)
    ∧ (env "WHISPER_MODEL" = none → (health env).2.model = "large-v3")
    ∧ (env "WHISPER_COMPUTE_TYPE" = some c → (health env).2.compute_type = c)
    ∧ (env "WHISPER_COMPUTE_TYPE" = none →
        (health env).2.compute_type = "int8") := by
  refine ⟨rfl, rfl, rfl, rfl, rfl, rfl, rfl, rfl, ?_, ?_, ?_, ?_⟩ <;>
    · intro h
      simp [health, MODEL_NAME, COMPUTE_TYPE, getenvD, h]

/-- Witness for C9 at a concrete environment overriding the model name. -/
theorem C9_witness :
    (health (fun k => if k = "WHISPER_MODEL" then some "large-v3-turbo"
        else none)).2.model = "large-v3-turbo"
    ∧ (health (fun k => if k = "WHISPER_MODEL" then some "large-v3-turbo"
        else none)).2.compute_type = "int8" :=
  ⟨(C9_health_root _ "large-v3-turbo" "int8").2.2.2.2.2.2.2.2.1 (by simp),
   (C9_health_root _ "large-v3-turbo" "int8").2.2.2.2.2.2.2.2.2.2.2 (by simp)⟩

end StoryBook
